import Mathlib

/-!
Verification development for the `sqlalchemy_timestream` dialect adapter.

The definitions below are a shallow embedding of the Python sources
`sqlalchemy_timestream/timestreamjdbc.py` and `sqlalchemy_timestream/base.py`:

* `visit` embeds the dispatch of `TimestreamTypeCompiler`'s `visit_*` methods;
  a Python `return` of a value `v` is `Except.ok v`, a raised exception is
  `Except.error`.  Values are `PyVal`: either a rendered string or a
  `sqlalchemy.exc.CompileError` object (the source *returns* such objects).
* `create_connect_args` embeds `TimestreamJDBCDialect.create_connect_args`
  together with its helpers `_find_jar_path_in_class_path` and
  `_get_assumed_role_credentials` (the STS exchange is an oracle parameter,
  since `boto3` is external).  The process environment is the `Env` record.
* `_get_column_type` embeds the regex substitution
  `re.compile(r"^([a-zA-Z]+)($|\(.+\)$)").sub(r"\1", type_)` used by
  `get_columns`, and `columnType` the subsequent `_TYPE_MAPPINGS.get(..., NULLTYPE)`.
* `has_table`, `get_foreign_keys`, `get_pk_constraint`, `get_indexes` and
  `is_disconnect` embed the corresponding methods; methods that run SQL
  (`get_table_names`) appear as oracle parameters.
-/

set_option maxHeartbeats 1000000
set_option maxRecDepth 100000
set_option linter.unusedVariables false

namespace Timestream

/-- Decidable equality for `Except`, so that concrete runs of the embedded
operations can be checked by `decide`. -/
instance {ε α : Type} [DecidableEq ε] [DecidableEq α] : DecidableEq (Except ε α) :=
  fun a b =>
    match a, b with
    | .error x, .error y =>
        if h : x = y then .isTrue (by rw [h])
        else .isFalse (by intro hc; injection hc; contradiction)
    | .ok x, .ok y =>
        if h : x = y then .isTrue (by rw [h])
        else .isFalse (by intro hc; injection hc; contradiction)
    | .error _, .ok _ => .isFalse (by intro hc; exact Except.noConfusion hc)
    | .ok _, .error _ => .isFalse (by intro hc; exact Except.noConfusion hc)

/-- A Python value produced by a `visit_*` method of the type compiler: either a
rendered SQL keyword string, or a `sqlalchemy.exc.CompileError` exception object
(the source constructs and returns these objects for unsupported types). -/
inductive PyVal where
  | pyStr (s : String)
  | pyCompileError (msg : String)
deriving DecidableEq

/-- Abstract SQL type descriptors: the types for which `TimestreamTypeCompiler`
declares a `visit_*` method.  `VARCHAR` carries the optional length and
collation consulted by sqlalchemy's `_render_string_type`. -/
inductive AbstractType where
  | INTEGER
  | BIGINT
  | BOOLEAN
  | REAL
  | VARCHAR (length : Option Nat) (collation : Option String)
  | DATE
  | TIME
  | TIMESTAMP
  | DATETIME
  | INTERVAL
  | TIMESERIES
  | UNKNOWN
  | ARRAY
  | CLOB
  | NCLOB
  | CHAR
  | NCHAR
  | NVARCHAR
  | TEXT
  | BLOB
  | BINARY
  | VARBINARY
deriving DecidableEq

/-- The string produced by Python's `str(type_)` for the unsupported types that
appear in the `"Data type `{0}` is not supported".format(type_)` messages. -/
def typeName : AbstractType → String
  | .INTEGER => "INTEGER"
  | .BIGINT => "BIGINT"
  | .BOOLEAN => "BOOLEAN"
  | .REAL => "REAL"
  | .VARCHAR _ _ => "VARCHAR"
  | .DATE => "DATE"
  | .TIME => "TIME"
  | .TIMESTAMP => "TIMESTAMP"
  | .DATETIME => "DATETIME"
  | .INTERVAL => "INTERVAL"
  | .TIMESERIES => "TIMESERIES"
  | .UNKNOWN => "UNKNOWN"
  | .ARRAY => "ARRAY"
  | .CLOB => "CLOB"
  | .NCLOB => "NCLOB"
  | .CHAR => "CHAR"
  | .NCHAR => "NCHAR"
  | .NVARCHAR => "NVARCHAR"
  | .TEXT => "TEXT"
  | .BLOB => "BLOB"
  | .BINARY => "BINARY"
  | .VARBINARY => "VARBINARY"

/-- The message of the `CompileError` constructed by each unsupported-type
`visit_*` method: `"Data type `{0}` is not supported".format(type_)`. -/
def unsupportedMsg (t : AbstractType) : String :=
  "Data type `" ++ typeName t ++ "` is not supported"

/-- Embedding of sqlalchemy's `GenericTypeCompiler._render_string_type`:
append `(length)` when the length is truthy, then the collation clause when the
collation is truthy. -/
def _render_string_type (length : Option Nat) (collation : Option String)
    (name : String) : String :=
  let text := name
  let text :=
    match length with
    | some n => if n ≠ 0 then text ++ "(" ++ toString n ++ ")" else text
    | none => text
  match collation with
  | some c => if c ≠ "" then text ++ " COLLATE \x22" ++ c ++ "\x22" else text
  | none => text

/-- Embedding of `TimestreamTypeCompiler.visit_TIMESTAMP`. -/
def visit_TIMESTAMP : Except String PyVal :=
  .ok (.pyStr "TIMESTAMP")

/-- Dispatch of the `visit_*` methods of `TimestreamTypeCompiler`.
`Except.ok` is a Python `return`; `Except.error` would be a raised exception.
Note that the unsupported-type methods `return` the `CompileError` object: none
of the methods raises.  `visit_DATETIME` delegates to `visit_TIMESTAMP`, as in
the source. -/
def visit : AbstractType → Except String PyVal
  | .INTEGER => .ok (.pyStr "INTEGER")
  | .BIGINT => .ok (.pyStr "BIGINT")
  | .BOOLEAN => .ok (.pyStr "BOOLEAN")
  | .REAL => .ok (.pyStr "DOUBLE")
  | .VARCHAR length collation =>
      .ok (.pyStr (_render_string_type length collation "VARCHAR"))
  | .DATE => .ok (.pyStr "DATE")
  | .TIME => .ok (.pyStr "TIME")
  | .TIMESTAMP => visit_TIMESTAMP
  | .DATETIME => visit_TIMESTAMP
  | .INTERVAL => .ok (.pyStr "STRING")
  | .TIMESERIES => .ok (.pyStr "STRING")
  | .UNKNOWN => .ok (.pyStr "NULL")
  | .ARRAY => .ok (.pyStr "ARRAY")
  | .CLOB => .ok (.pyCompileError (unsupportedMsg .CLOB))
  | .NCLOB => .ok (.pyCompileError (unsupportedMsg .NCLOB))
  | .CHAR => .ok (.pyCompileError (unsupportedMsg .CHAR))
  | .NCHAR => .ok (.pyCompileError (unsupportedMsg .NCHAR))
  | .NVARCHAR => .ok (.pyCompileError (unsupportedMsg .NVARCHAR))
  | .TEXT => .ok (.pyCompileError (unsupportedMsg .TEXT))
  | .BLOB => .ok (.pyCompileError (unsupportedMsg .BLOB))
  | .BINARY => .ok (.pyCompileError (unsupportedMsg .BINARY))
  | .VARBINARY => .ok (.pyCompileError (unsupportedMsg .VARBINARY))

/-- Python list-level model of `n.isPrefixOf l`: does `l` begin with `n`? -/
def beginsWith : List Char → List Char → Bool
  | _, [] => true
  | [], _ :: _ => false
  | c :: l, d :: n => c == d && beginsWith l n

/-- Python `needle in haystack` on the underlying character lists: some tail of
the haystack begins with the needle. -/
def hasSub (needle : List Char) : List Char → Bool
  | [] => beginsWith [] needle
  | c :: l => beginsWith (c :: l) needle || hasSub needle l

/-- Python's substring test `needle in s` on strings. -/
def strIn (needle s : String) : Bool :=
  hasSub needle.data s.data

/-- Python `s.split(sep)` for a single-character separator (empty pieces kept,
`"".split(sep) == [""]`). -/
def splitChar (sep : Char) : List Char → List (List Char)
  | [] => [[]]
  | c :: l =>
    if c == sep then [] :: splitChar sep l
    else
      match splitChar sep l with
      | [] => [[c]]
      | p :: ps => (c :: p) :: ps

/-- The characters after the first occurrence of `"//"`, if any. -/
def afterDoubleSlash : List Char → Option (List Char)
  | [] => none
  | c :: l =>
    if beginsWith (c :: l) ['/', '/'] then some (l.drop 1)
    else afterDoubleSlash l

/-- Python `str(url).split("//", 1)[-1]`: everything after the first `"//"`,
or the whole string when there is none. -/
def afterScheme (s : String) : String :=
  match afterDoubleSlash s.data with
  | some r => ⟨r⟩
  | none => s

/-- A Python `dict` with string keys whose values may be `None`
(`Option String`), observed only through `get`/item assignment. -/
abbrev PyDict := List (String × Option String)

/-- Python `d.get(k)`: the stored value, or `None` when the key is absent
(a stored `None` and an absent key are indistinguishable through `get`). -/
def dictGet : PyDict → String → Option String
  | [], _ => none
  | (k', v') :: d, k => if k' = k then v' else dictGet d k

/-- Python `d[k] = v`: replace the first binding of `k` in place, or append a
new binding at the end (insertion order, as for a Python dict). -/
def dictSet : PyDict → String → Option String → PyDict
  | [], k, v => [(k, v)]
  | (k', v') :: d, k, v =>
    if k' = k then (k, v) :: d else (k', v') :: dictSet d k v

/-- Python truthiness of an optional string: `None` and `""` are falsy. -/
def truthy : Option String → Bool
  | none => false
  | some s => !(s == "")

/-- The process environment read by `create_connect_args`:
`os.getenv("CLASSPATH")` and `os.getenv("AWS_DEFAULT_REGION")`. -/
structure Env where
  classpath : Option String
  awsDefaultRegion : Option String

/-- `TimestreamJDBCDialect.jdbc_driver_name`. -/
def jdbc_driver_name : String :=
  "software.amazon.timestream.jdbc.TimestreamDriver"

/-- `TimestreamJDBCDialect.jdbc_driver_version`. -/
def jdbc_driver_version : String := "2.0.0"

/-- `TimestreamJDBCDialect.jdbc_jar_name`, i.e.
`"amazon-timestream-jdbc-{}-shaded.jar".format(jdbc_driver_version)`. -/
def jdbc_jar_name : String :=
  "amazon-timestream-jdbc-" ++ jdbc_driver_version ++ "-shaded.jar"

/-- The constant protocol URL `jdbc:timestream://` built by
`create_connect_args`. -/
def jdbc_url : String := "jdbc:timestream://"

/-- The message of the exception raised by `_find_jar_path_in_class_path` when
`CLASSPATH` is unset. -/
def jarNotFoundMsg : String :=
  "JDBC driver JAR path is not found in CLASSPATH environment variable. Please set the driver path in the aforementioned environment variable or in the property DriverPath of the connection string"

/-- Embedding of `TimestreamJDBCDialect._find_jar_path_in_class_path`: raise
when `CLASSPATH` is unset; otherwise return the first colon-delimited entry
containing `jdbc_jar_name` — and fall off the end (returning Python `None`,
here `Except.ok none`) when no entry matches. -/
def _find_jar_path_in_class_path (env : Env) : Except String (Option String) :=
  match env.classpath with
  | none => .error jarNotFoundMsg
  | some class_path =>
      .ok (((splitChar ':' class_path.data).map (fun l => (⟨l⟩ : String))).find?
        (fun path => strIn jdbc_jar_name path))

/-- The semicolon-separated property chunks of the URL:
`str(url).split("//", 1)[-1].split(";")`. -/
def urlProps (s : String) : List String :=
  (splitChar ';' (afterScheme s).data).map (fun l => (⟨l⟩ : String))

/-- The loop `for prop in properties: k, v = prop.split("=")[0], prop.split("=")[1];
driver_args[k] = v`.  A chunk without `"="` raises `IndexError`. -/
def parseDriverArgs : List String → PyDict → Except String PyDict
  | [], d => .ok d
  | prop :: rest, d =>
    match splitChar '=' prop.data with
    | k :: v :: _ => parseDriverArgs rest (dictSet d ⟨k⟩ (some (⟨v⟩ : String)))
    | _ => .error "list index out of range"

/-- The step `if not driver_args.get("Region"): driver_args["Region"] =
os.getenv("AWS_DEFAULT_REGION")`. -/
def regionStep (env : Env) (d : PyDict) : PyDict :=
  if truthy (dictGet d "Region") then d
  else dictSet d "Region" env.awsDefaultRegion

/-- The step that, when `driver_args.get("RoleArn")` is truthy, calls
`_get_assumed_role_credentials(role_arn, region)` — modelled by the oracle
`sts` for the external `boto3` STS exchange — and stores the returned
`AccessKeyId`, `SecretAccessKey` and `SessionToken`. -/
def applyRoleArn (sts : String → Option String → String × String × String)
    (d : PyDict) : PyDict :=
  match dictGet d "RoleArn" with
  | none => d
  | some arn =>
    if arn = "" then d
    else
      dictSet (dictSet (dictSet d
          "AccessKeyId" (some (sts arn (dictGet d "Region")).1))
          "SecretAccessKey" (some (sts arn (dictGet d "Region")).2.1))
          "SessionToken" (some (sts arn (dictGet d "Region")).2.2)

/-- The jar-path resolution: an explicit truthy `DriverPath` property wins,
otherwise `_find_jar_path_in_class_path` is consulted. -/
def resolveJar (env : Env) (d : PyDict) : Except String (Option String) :=
  if truthy (dictGet d "DriverPath") then .ok (dictGet d "DriverPath")
  else _find_jar_path_in_class_path env

/-- The keyword mapping built by `create_connect_args` and handed to
`jaydebeapi.connect`. -/
structure ConnectKwargs where
  jclassname : String
  url : String
  driver_args : PyDict
  jars : Option String
deriving DecidableEq

/-- Embedding of `TimestreamJDBCDialect.create_connect_args`.  `sts` is the
oracle for the external role-assumption exchange; `Except.error` is a raised
exception; the result `Option (Unit × ConnectKwargs)` is Python `None` (bare
`return` when the url is `None`) or the pair `((), kwargs)`. -/
def create_connect_args (sts : String → Option String → String × String × String)
    (env : Env) (url : Option String) : Except String (Option (Unit × ConnectKwargs)) :=
  match url with
  | none => .ok none
  | some s =>
    match parseDriverArgs (urlProps s) [] with
    | .error e => .error e
    | .ok d0 =>
      match resolveJar env (applyRoleArn sts (regionStep env d0)) with
      | .error e => .error e
      | .ok jar =>
        .ok (some ((), ⟨jdbc_driver_name, jdbc_url,
          applyRoleArn sts (regionStep env d0), jar⟩))

/-- The abstract sqlalchemy type tags appearing in `_TYPE_MAPPINGS`. -/
inductive SQLType where
  | BOOLEAN
  | FLOAT
  | INTEGER
  | BIGINT
  | STRINGTYPE
  | DATE
  | TIMESTAMP
  | NULLTYPE
deriving DecidableEq

/-- The module-level table `_TYPE_MAPPINGS` of `timestreamjdbc.py`. -/
def _TYPE_MAPPINGS : List (String × SQLType) :=
  [("boolean", .BOOLEAN),
   ("double", .FLOAT),
   ("integer", .INTEGER),
   ("bigint", .BIGINT),
   ("varchar", .STRINGTYPE),
   ("array", .STRINGTYPE),
   ("row", .STRINGTYPE),
   ("date", .DATE),
   ("time", .TIMESTAMP),
   ("timestamp", .TIMESTAMP),
   ("interval", .STRINGTYPE),
   ("timeseries", .STRINGTYPE),
   ("unknown", .NULLTYPE)]

/-- `_TYPE_MAPPINGS.get(key, NULLTYPE)`. -/
def lookupType (key : String) : SQLType :=
  match _TYPE_MAPPINGS.lookup key with
  | some t => t
  | none => .NULLTYPE

/-- Is the inner part of a parenthesized group acceptable to `\(.+\)`:
nonempty, and without a newline (`.` does not match a newline)? -/
def innerOk (m : List Char) : Bool :=
  !m.isEmpty && m.all (fun c => c != '\n')

/-- How the second regex group `($|\(.+\)$)` treats the characters `r` that
follow the alphabetic head.  `some keep` means the group matches and the
substitution keeps exactly `keep` after group 1 (`$` may also match just
before a final newline, which then survives the substitution); `none` means
the whole regex fails to match and `re.sub` leaves the string unchanged. -/
def parenCase (r : List Char) : Option (List Char) :=
  if r = [] then some []
  else if r = ['\n'] then some ['\n']
  else if r.head? = some '(' then
    if (r.tail.getLast? = some ')') ∧ innerOk r.tail.dropLast then some []
    else if (r.tail.getLast? = some '\n') ∧ (r.tail.dropLast.getLast? = some ')') ∧
        innerOk r.tail.dropLast.dropLast then some ['\n']
    else none
  else none

/-- Embedding of `TimestreamJDBCDialect._get_column_type`, the substitution
`_pattern_column_type.sub(r"\1", type_)` for the compiled pattern
`^([a-zA-Z]+)($|\(.+\)$)`: when the string is an alphabetic head followed by a
matching tail, keep only the head (plus a final newline matched by `$`);
otherwise return the string unchanged. -/
def _get_column_type (s : String) : String :=
  if (s.data.takeWhile Char.isAlpha).isEmpty then s
  else
    match parenCase (s.data.dropWhile Char.isAlpha) with
    | some keep => ⟨s.data.takeWhile Char.isAlpha ++ keep⟩
    | none => s

/-- The type computed for a `DESCRIBE` row by `get_columns`:
`_TYPE_MAPPINGS.get(self._get_column_type(row.data_type), NULLTYPE)`. -/
def columnType (data_type : String) : SQLType :=
  lookupType (_get_column_type data_type)

/-- Placeholder element type for the reflection results that are always
empty (`get_foreign_keys`, `get_pk_constraint`, `get_indexes`). -/
structure ReflectedInfo where
  name : String
deriving DecidableEq

/-- Embedding of `TimestreamJDBCDialect.get_foreign_keys`: `return []`,
without consulting the connection. -/
def get_foreign_keys {Conn : Type} (connection : Conn) (table_name : String)
    (schema : Option String) (kw : List (String × String)) : List ReflectedInfo :=
  []

/-- Embedding of `TimestreamJDBCDialect.get_pk_constraint`: `return []`. -/
def get_pk_constraint {Conn : Type} (connection : Conn) (table_name : String)
    (schema : Option String) (kw : List (String × String)) : List ReflectedInfo :=
  []

/-- Embedding of `TimestreamJDBCDialect.get_indexes`: `return []`. -/
def get_indexes {Conn : Type} (connection : Conn) (table_name : String)
    (schema : Option String) (kw : List (String × String)) : List ReflectedInfo :=
  []

/-- Embedding of `TimestreamJDBCDialect.has_table`.  `get_table_names` (which
runs a SQL query) is an oracle parameter; the method tests membership of the
table name in its result. -/
def has_table {Conn : Type} (get_table_names : Conn → Option String → List String)
    (connection : Conn) (table_name : String) (schema : Option String) : Bool :=
  let table_names := get_table_names connection schema
  if table_name ∈ table_names then true else false

/-- A DB-API error as observed by `BaseDialect.is_disconnect`: whether it is
an instance of the bridge's `ProgrammingError`, and its `str(e)` text. -/
structure DBError where
  programmingError : Bool
  text : String

/-- The evaluation of the attribute access `self.import_dbapi.ProgrammingError`
in `BaseDialect.is_disconnect`.  `import_dbapi` is a classmethod that the
source never calls: `self.import_dbapi` is the bound-method object, attribute
lookup on it delegates to the underlying function, and the function has no
`ProgrammingError` attribute — so the expression raises `AttributeError`
instead of producing the DB-API exception class. -/
def import_dbapi_ProgrammingError : Except String Unit :=
  .error "AttributeError: 'function' object has no attribute 'ProgrammingError'"

/-- Embedding of `BaseDialect.is_disconnect`.  The method's first expression,
`isinstance(e, self.import_dbapi.ProgrammingError)`, evaluates the attribute
access `import_dbapi_ProgrammingError` before anything else, and that raises
(`Except.error`) on every call; the classification the rest of the method
would perform (`False` unless a `ProgrammingError` whose text contains one of
the two closed-connection substrings) sits behind it, unreachable. -/
def is_disconnect (e : DBError) : Except String Bool :=
  match import_dbapi_ProgrammingError with
  | .error msg => .error msg
  | .ok _ =>
    if !e.programmingError then .ok false
    else .ok (strIn "connection is closed" e.text || strIn "cursor is closed" e.text)

/-- Specification-side notion of substring containment: `s` decomposes as
`p ++ needle ++ q`. -/
def SubstringOf (needle s : String) : Prop :=
  ∃ p q : String, s = p ++ needle ++ q

theorem beginsWith_iff (n : List Char) : ∀ l : List Char,
    (beginsWith l n = true ↔ ∃ t, l = n ++ t) := by
  induction n with
  | nil => intro l; cases l <;> simp [beginsWith]
  | cons d n ih =>
    intro l
    cases l with
    | nil => simp [beginsWith]
    | cons c l => simp [beginsWith, ih, Bool.and_eq_true, beq_iff_eq]

theorem hasSub_iff (n : List Char) : ∀ l : List Char,
    (hasSub n l = true ↔ ∃ p t, l = p ++ n ++ t) := by
  intro l
  induction l with
  | nil =>
    rw [hasSub, beginsWith_iff]
    constructor
    · rintro ⟨t, ht⟩; exact ⟨[], t, by simpa using ht⟩
    · rintro ⟨p, t, ht⟩
      rcases List.append_eq_nil.mp ht.symm with ⟨h1, h2⟩
      rcases List.append_eq_nil.mp h1 with ⟨h3, h4⟩
      exact ⟨t, by simp [h4, h2]⟩
  | cons c l ih =>
    rw [hasSub, Bool.or_eq_true, beginsWith_iff, ih]
    constructor
    · rintro (⟨t, ht⟩ | ⟨p, t, ht⟩)
      · exact ⟨[], t, by simpa using ht⟩
      · exact ⟨c :: p, t, by simp [ht]⟩
    · rintro ⟨p, t, ht⟩
      cases p with
      | nil => exact Or.inl ⟨t, by simpa using ht⟩
      | cons p0 ps =>
        rcases List.cons.injEq .. ▸ ht with ⟨h1, h2⟩
        exact Or.inr ⟨ps, t, h2⟩

theorem strIn_iff (needle s : String) : strIn needle s = true ↔ SubstringOf needle s := by
  rw [strIn, hasSub_iff]
  constructor
  · rintro ⟨p, t, ht⟩
    exact ⟨⟨p⟩, ⟨t⟩, String.ext (by simpa [String.data_append] using ht)⟩
  · rintro ⟨p, q, hpq⟩
    exact ⟨p.data, q.data, by simp [hpq, String.data_append]⟩

/-- C1: each unsupported abstract type (CLOB, NCLOB, CHAR, NCHAR, NVARCHAR,
TEXT, BLOB, BINARY, VARBINARY) makes the type compiler *return* (`Except.ok`,
i.e. a Python `return`, not a raised exception) a `CompileError` object whose
message carries the type's name.  This evaluates the code at the failing
inputs: no unsupported-type error is ever raised, contradicting the claim
that the visit method raises. -/
theorem C1_unsupported_returned_not_raised :
    visit .CLOB = .ok (.pyCompileError "Data type `CLOB` is not supported") ∧
    visit .NCLOB = .ok (.pyCompileError "Data type `NCLOB` is not supported") ∧
    visit .CHAR = .ok (.pyCompileError "Data type `CHAR` is not supported") ∧
    visit .NCHAR = .ok (.pyCompileError "Data type `NCHAR` is not supported") ∧
    visit .NVARCHAR = .ok (.pyCompileError "Data type `NVARCHAR` is not supported") ∧
    visit .TEXT = .ok (.pyCompileError "Data type `TEXT` is not supported") ∧
    visit .BLOB = .ok (.pyCompileError "Data type `BLOB` is not supported") ∧
    visit .BINARY = .ok (.pyCompileError "Data type `BINARY` is not supported") ∧
    visit .VARBINARY = .ok (.pyCompileError "Data type `VARBINARY` is not supported") :=
  ⟨rfl, rfl, rfl, rfl, rfl, rfl, rfl, rfl, rfl⟩

/-- C5: for every supported abstract type the type compiler returns exactly
the documented literal keyword: INTEGER, BIGINT, BOOLEAN, DOUBLE for REAL,
VARCHAR(n) for a sized varchar, DATE, TIME, TIMESTAMP (also for DATETIME),
ARRAY, and NULL for the unknown type. -/
theorem C5_supported_keywords (n : Nat) (hn : n ≠ 0) :
    visit .INTEGER = .ok (.pyStr "INTEGER") ∧
    visit .BIGINT = .ok (.pyStr "BIGINT") ∧
    visit .BOOLEAN = .ok (.pyStr "BOOLEAN") ∧
    visit .REAL = .ok (.pyStr "DOUBLE") ∧
    visit (.VARCHAR (some n) none) = .ok (.pyStr ("VARCHAR(" ++ toString n ++ ")")) ∧
    visit .DATE = .ok (.pyStr "DATE") ∧
    visit .TIME = .ok (.pyStr "TIME") ∧
    visit .TIMESTAMP = .ok (.pyStr "TIMESTAMP") ∧
    visit .DATETIME = .ok (.pyStr "TIMESTAMP") ∧
    visit .ARRAY = .ok (.pyStr "ARRAY") ∧
    visit .UNKNOWN = .ok (.pyStr "NULL") := by
  refine ⟨rfl, rfl, rfl, rfl, ?_, rfl, rfl, rfl, rfl, rfl, rfl⟩
  have h : _render_string_type (some n) none "VARCHAR" =
      "VARCHAR(" ++ toString n ++ ")" := by
    show (if n ≠ 0 then "VARCHAR" ++ "(" ++ toString n ++ ")" else "VARCHAR") =
      "VARCHAR(" ++ toString n ++ ")"
    rw [if_pos hn]
    exact rfl
  exact congrArg (fun s => Except.ok (PyVal.pyStr s)) h

/-- Witness for C5 at the concrete length 30. -/
theorem C5_witness :
    (30 : Nat) ≠ 0 ∧
      (visit .INTEGER = .ok (.pyStr "INTEGER") ∧
       visit .BIGINT = .ok (.pyStr "BIGINT") ∧
       visit .BOOLEAN = .ok (.pyStr "BOOLEAN") ∧
       visit .REAL = .ok (.pyStr "DOUBLE") ∧
       visit (.VARCHAR (some 30) none) = .ok (.pyStr ("VARCHAR(" ++ toString 30 ++ ")")) ∧
       visit .DATE = .ok (.pyStr "DATE") ∧
       visit .TIME = .ok (.pyStr "TIME") ∧
       visit .TIMESTAMP = .ok (.pyStr "TIMESTAMP") ∧
       visit .DATETIME = .ok (.pyStr "TIMESTAMP") ∧
       visit .ARRAY = .ok (.pyStr "ARRAY") ∧
       visit .UNKNOWN = .ok (.pyStr "NULL")) :=
  ⟨by decide, C5_supported_keywords 30 (by decide)⟩

/-- C7: `get_foreign_keys`, `get_pk_constraint` and `get_indexes` return the
empty sequence for every connection, table name, schema and extra keyword
arguments, without consulting the connection. -/
theorem C7_reflection_always_empty {Conn : Type} (connection : Conn)
    (table_name : String) (schema : Option String) (kw : List (String × String)) :
    get_foreign_keys connection table_name schema kw = [] ∧
    get_pk_constraint connection table_name schema kw = [] ∧
    get_indexes connection table_name schema kw = [] :=
  ⟨rfl, rfl, rfl⟩

/-- C8: `has_table` returns `true` exactly when the table name is a member of
the result of `get_table_names` for that connection and schema (the query
oracle is the only way the connection is consulted). -/
theorem C8_has_table_iff_member {Conn : Type}
    (get_table_names : Conn → Option String → List String) (connection : Conn)
    (table_name : String) (schema : Option String) :
    has_table get_table_names connection table_name schema = true ↔
      table_name ∈ get_table_names connection schema := by
  by_cases h : table_name ∈ get_table_names connection schema <;>
    simp [has_table, h]

/-- C9: evaluation of the code at the failing inputs — every one of them.
`is_disconnect` raises `AttributeError` on every call, because its first
expression accesses `ProgrammingError` on the uncalled classmethod
`self.import_dbapi`; it therefore never performs the claimed classification
(neither returning `true` on a close-substring `ProgrammingError` nor `false`
on any other error).  In particular it raises at a `ProgrammingError` whose
text contains `connection is closed`. -/
theorem C9_always_raises (e : DBError) :
    is_disconnect e =
      .error "AttributeError: 'function' object has no attribute 'ProgrammingError'" :=
  rfl

theorem dictGet_dictSet_same (d : PyDict) (k : String) (v : Option String) :
    dictGet (dictSet d k v) k = v := by
  induction d with
  | nil => simp [dictGet, dictSet]
  | cons p d ih =>
    obtain ⟨k', v'⟩ := p
    by_cases h : k' = k <;> simp [dictGet, dictSet, h, ih]

theorem dictGet_dictSet_ne (d : PyDict) (k k' : String) (v : Option String)
    (h : k ≠ k') : dictGet (dictSet d k v) k' = dictGet d k' := by
  induction d with
  | nil => simp [dictGet, dictSet, h]
  | cons p d ih =>
    obtain ⟨k0, v0⟩ := p
    by_cases h0 : k0 = k <;> simp [dictGet, dictSet, h0, h, ih]

theorem dictGet_applyRoleArn_ne (sts : String → Option String → String × String × String)
    (d : PyDict) (k : String) (h1 : k ≠ "AccessKeyId") (h2 : k ≠ "SecretAccessKey")
    (h3 : k ≠ "SessionToken") :
    dictGet (applyRoleArn sts d) k = dictGet d k := by
  rw [applyRoleArn]
  cases ha : dictGet d "RoleArn" with
  | none => rfl
  | some arn =>
    by_cases he : arn = ""
    · simp [he]
    · simp only [he, if_false, ite_false, if_neg he]
      rw [dictGet_dictSet_ne _ _ _ _ (Ne.symm h3),
        dictGet_dictSet_ne _ _ _ _ (Ne.symm h2),
        dictGet_dictSet_ne _ _ _ _ (Ne.symm h1)]

theorem dictGet_regionStep_ne (env : Env) (d : PyDict) (k : String)
    (h : k ≠ "Region") : dictGet (regionStep env d) k = dictGet d k := by
  rw [regionStep]
  split
  · rfl
  · exact dictGet_dictSet_ne _ _ _ _ (Ne.symm h)

theorem dictGet_regionStep_Region (env : Env) (d : PyDict) :
    dictGet (regionStep env d) "Region" =
      if truthy (dictGet d "Region") then dictGet d "Region"
      else env.awsDefaultRegion := by
  rw [regionStep]
  split
  next h => rfl
  next h => rw [dictGet_dictSet_same]

theorem create_connect_args_ok (sts : String → Option String → String × String × String)
    (env : Env) (s : String) (a : Unit) (kw : ConnectKwargs)
    (h : create_connect_args sts env (some s) = .ok (some (a, kw))) :
    ∃ d0 jar, parseDriverArgs (urlProps s) [] = .ok d0 ∧
      resolveJar env (applyRoleArn sts (regionStep env d0)) = .ok jar ∧
      kw = ⟨jdbc_driver_name, jdbc_url, applyRoleArn sts (regionStep env d0), jar⟩ := by
  simp only [create_connect_args] at h
  split at h
  next e hp => exact absurd h (by simp)
  next d0 hp =>
    split at h
    next e hj => exact absurd h (by simp)
    next jar hj =>
      refine ⟨d0, jar, hp, hj, ?_⟩
      injection h with h1
      injection h1 with h2
      exact (congrArg Prod.snd h2).symm

/-- C2 counterexample: for the URL whose post-scheme part is the bare host
`timestream.ap-southeast-2.amazonaws.com`, `create_connect_args` raises
(`IndexError` from splitting a chunk without `=`) instead of emitting driver
properties with `Region = ap-southeast-2`; no Region is ever derived from the
host. -/
theorem C2_host_url_raises :
    create_connect_args (fun _ _ => ("", "", "")) ⟨some "/opt/other-driver.jar", none⟩
      (some "awstimestream://timestream.ap-southeast-2.amazonaws.com") =
    .error "list index out of range" := by decide

/-- C2 (amended): the Region property of the emitted mapping is not derived
from the host; it equals the explicit `Region` property parsed from the
semicolon-delimited connection string when that value is truthy, and the
`AWS_DEFAULT_REGION` environment variable otherwise. -/
theorem C2_region_from_property
    (sts : String → Option String → String × String × String) (env : Env)
    (s : String) (d0 : PyDict) (a : Unit) (kw : ConnectKwargs)
    (hp : parseDriverArgs (urlProps s) [] = .ok d0)
    (hok : create_connect_args sts env (some s) = .ok (some (a, kw))) :
    dictGet kw.driver_args "Region" =
      if truthy (dictGet d0 "Region") then dictGet d0 "Region"
      else env.awsDefaultRegion := by
  obtain ⟨d0', jar, hp', hj, hkw⟩ := create_connect_args_ok sts env s a kw hok
  have hd : d0 = d0' := by
    have := hp.symm.trans hp'
    injection this
  subst hd
  rw [hkw]
  show dictGet (applyRoleArn sts (regionStep env d0)) "Region" = _
  rw [dictGet_applyRoleArn_ne _ _ _ (by decide) (by decide) (by decide),
    dictGet_regionStep_Region]

def stsNull : String → Option String → String × String × String :=
  fun _ _ => ("", "", "")

def stsNew : String → Option String → String × String × String :=
  fun _ _ => ("NEWAK", "NEWSK", "NEWST")

def envOtherJar : Env := ⟨some "/opt/other-driver.jar", none⟩

def sRegion : String := "awstimestream://Region=ap-southeast-2;DriverPath=/opt/driver.jar"

def dRegion : PyDict :=
  [("Region", some "ap-southeast-2"), ("DriverPath", some "/opt/driver.jar")]

def kwRegion : ConnectKwargs := ⟨jdbc_driver_name, jdbc_url, dRegion, some "/opt/driver.jar"⟩

/-- Witness for the amended C2: a URL carrying `Region=ap-southeast-2` as an
explicit property yields that Region in the emitted mapping. -/
theorem C2_witness : dictGet kwRegion.driver_args "Region" = some "ap-southeast-2" :=
  (C2_region_from_property stsNull envOtherJar sRegion dRegion () kwRegion
    (by decide) (by decide)).trans (by decide)

/-- C3: evaluation at the failing input.  With no `DriverPath` property and a
`CLASSPATH` whose entries do not contain the known jar filename, the loop in
`_find_jar_path_in_class_path` falls off the end and `create_connect_args`
returns a result whose jar path is `None` instead of raising the
missing-driver-jar error (second conjunct: the error is raised only when
`CLASSPATH` is entirely unset). -/
theorem C3_jar_fallthrough :
    create_connect_args stsNull envOtherJar (some "awstimestream://Region=us-east-1") =
      .ok (some ((), ⟨jdbc_driver_name, jdbc_url, [("Region", some "us-east-1")], none⟩)) ∧
    create_connect_args stsNull ⟨none, none⟩ (some "awstimestream://Region=us-east-1") =
      .error jarNotFoundMsg :=
  ⟨by decide, by decide⟩

/-- C4: when the parsed connection properties carry a nonempty `RoleArn`, the
emitted property mapping's `AccessKeyId`, `SecretAccessKey` and `SessionToken`
equal the temporary credentials returned by the role-assumption exchange
(`sts`), whatever credentials the URL itself carried. -/
theorem C4_role_assumption
    (sts : String → Option String → String × String × String) (env : Env)
    (s arn : String) (d0 : PyDict) (a : Unit) (kw : ConnectKwargs)
    (hp : parseDriverArgs (urlProps s) [] = .ok d0)
    (ha : dictGet d0 "RoleArn" = some arn) (hne : arn ≠ "")
    (hok : create_connect_args sts env (some s) = .ok (some (a, kw))) :
    dictGet kw.driver_args "AccessKeyId" =
      some (sts arn (dictGet (regionStep env d0) "Region")).1 ∧
    dictGet kw.driver_args "SecretAccessKey" =
      some (sts arn (dictGet (regionStep env d0) "Region")).2.1 ∧
    dictGet kw.driver_args "SessionToken" =
      some (sts arn (dictGet (regionStep env d0) "Region")).2.2 := by
  obtain ⟨d0', jar, hp', hj, hkw⟩ := create_connect_args_ok sts env s a kw hok
  have hd : d0 = d0' := by
    have := hp.symm.trans hp'
    injection this
  subst hd
  rw [hkw]
  have hra : dictGet (regionStep env d0) "RoleArn" = some arn := by
    rw [dictGet_regionStep_ne _ _ _ (by decide)]
    exact ha
  show dictGet (applyRoleArn sts (regionStep env d0)) "AccessKeyId" = _ ∧
    dictGet (applyRoleArn sts (regionStep env d0)) "SecretAccessKey" = _ ∧
    dictGet (applyRoleArn sts (regionStep env d0)) "SessionToken" = _
  rw [applyRoleArn, hra]
  simp only [if_neg hne]
  refine ⟨?_, ?_, ?_⟩
  · rw [dictGet_dictSet_ne _ _ _ _ (by decide),
      dictGet_dictSet_ne _ _ _ _ (by decide), dictGet_dictSet_same]
  · rw [dictGet_dictSet_ne _ _ _ _ (by decide), dictGet_dictSet_same]
  · rw [dictGet_dictSet_same]

def sRole : String :=
  "awstimestream://Region=us-east-1;AccessKeyId=OLDAK;SecretAccessKey=OLDSK;RoleArn=arnrole;DriverPath=/opt/driver.jar"

def dRole : PyDict :=
  [("Region", some "us-east-1"), ("AccessKeyId", some "OLDAK"),
   ("SecretAccessKey", some "OLDSK"), ("RoleArn", some "arnrole"),
   ("DriverPath", some "/opt/driver.jar")]

def kwRole : ConnectKwargs :=
  ⟨jdbc_driver_name, jdbc_url,
   [("Region", some "us-east-1"), ("AccessKeyId", some "NEWAK"),
    ("SecretAccessKey", some "NEWSK"), ("RoleArn", some "arnrole"),
    ("DriverPath", some "/opt/driver.jar"), ("SessionToken", some "NEWST")],
   some "/opt/driver.jar"⟩

/-- Witness for C4: a concrete URL carrying `RoleArn=arnrole` together with
static credentials `OLDAK`/`OLDSK`; the emitted mapping holds the assumed-role
credentials instead. -/
theorem C4_witness :
    dictGet kwRole.driver_args "AccessKeyId" =
      some (stsNew "arnrole" (dictGet (regionStep envOtherJar dRole) "Region")).1 ∧
    dictGet kwRole.driver_args "SecretAccessKey" =
      some (stsNew "arnrole" (dictGet (regionStep envOtherJar dRole) "Region")).2.1 ∧
    dictGet kwRole.driver_args "SessionToken" =
      some (stsNew "arnrole" (dictGet (regionStep envOtherJar dRole) "Region")).2.2 :=
  C4_role_assumption stsNew envOtherJar sRole "arnrole" dRole () kwRole
    (by decide) (by decide) (by decide) (by decide)

/-- C10 counterexample: `create_connect_args` does not return a pair for every
non-`None` URL — a URL whose post-scheme part has no `=` raises `IndexError`. -/
theorem C10_malformed_url_raises :
    create_connect_args stsNull envOtherJar (some "nokey") =
      .error "list index out of range" := by decide

/-- C10 (amended): with a `None` URL, `create_connect_args` returns Python
`None` (no argument pair) rather than raising; and whenever it does return a
pair for a non-`None` URL, the pair is `((), kwargs)` with the constant bridge
class name `software.amazon.timestream.jdbc.TimestreamDriver` and the constant
protocol URL `jdbc:timestream://`, independent of the URL's content. -/
theorem C10_none_and_constants
    (sts : String → Option String → String × String × String) (env : Env) :
    create_connect_args sts env none = .ok none ∧
    ∀ (s : String) (a : Unit) (kw : ConnectKwargs),
      create_connect_args sts env (some s) = .ok (some (a, kw)) →
        kw.jclassname = "software.amazon.timestream.jdbc.TimestreamDriver" ∧
        kw.url = "jdbc:timestream://" := by
  refine ⟨rfl, ?_⟩
  intro s a kw hok
  obtain ⟨d0, jar, hp, hj, hkw⟩ := create_connect_args_ok sts env s a kw hok
  rw [hkw]
  exact ⟨rfl, rfl⟩

/-- Witness for the amended C10 at a concrete environment and URL. -/
theorem C10_witness :
    create_connect_args stsNull envOtherJar none = .ok none ∧
    kwRegion.jclassname = "software.amazon.timestream.jdbc.TimestreamDriver" ∧
    kwRegion.url = "jdbc:timestream://" := by
  have h := C10_none_and_constants stsNull envOtherJar
  exact ⟨h.1, h.2 sRegion () kwRegion (by decide)⟩

theorem spanAt {p : Char → Bool} (c : Char) (l₂ : List Char) (hc : p c = false) :
    ∀ l₁ : List Char, l₁.all p = true →
      (l₁ ++ c :: l₂).takeWhile p = l₁ ∧ (l₁ ++ c :: l₂).dropWhile p = c :: l₂ := by
  intro l₁
  induction l₁ with
  | nil => intro _; simp [List.takeWhile_cons, List.dropWhile_cons, hc]
  | cons a l ih =>
    intro h
    rw [List.all_cons, Bool.and_eq_true] at h
    obtain ⟨pa, hl⟩ := h
    obtain ⟨ht, hd⟩ := ih hl
    simp [List.takeWhile_cons, List.dropWhile_cons, pa, ht, hd]

theorem parenCase_paren (m : List Char) (hne : m ≠ [])
    (hnl : m.all (fun c => c != '\n') = true) :
    parenCase ('(' :: (m ++ [')'])) = some [] := by
  have hemp : m.isEmpty = false := by
    cases m with
    | nil => exact absurd rfl hne
    | cons a l => rfl
  have h2 : ('(' :: (m ++ [')'])) ≠ ['\n'] := by
    intro h
    injection h with ha hb
    exact absurd ha (by decide)
  have hcond : (('(' :: (m ++ [')'])).tail.getLast? = some ')') ∧
      innerOk (('(' :: (m ++ [')'])).tail.dropLast) = true := by
    constructor
    · show (m ++ [')']).getLast? = some ')'
      exact List.getLast?_concat m
    · show innerOk ((m ++ [')']).dropLast) = true
      rw [List.dropLast_concat, innerOk, hemp, hnl]
      rfl
  rw [parenCase, if_neg (by simp), if_neg h2,
    if_pos (show ('(' :: (m ++ [')'])).head? = some '(' from rfl),
    if_pos hcond]

theorem getColumnType_strip (base m : String)
    (hb1 : base.data ≠ []) (hb2 : base.data.all Char.isAlpha = true)
    (hm1 : m.data ≠ []) (hm2 : m.data.all (fun c => c != '\n') = true) :
    _get_column_type (base ++ "(" ++ m ++ ")") = base := by
  have hdata : (base ++ "(" ++ m ++ ")").data =
      base.data ++ '(' :: (m.data ++ [')']) := by
    rw [String.data_append, String.data_append, String.data_append,
      show ("(" : String).data = ['('] from rfl,
      show (")" : String).data = [')'] from rfl]
    simp [List.append_assoc]
  have halpha : Char.isAlpha '(' = false := by decide
  obtain ⟨ht, hd⟩ := spanAt '(' (m.data ++ [')']) halpha base.data hb2
  have hemp : (base.data).isEmpty = false := by
    cases hb : base.data with
    | nil => exact absurd hb hb1
    | cons a l => rfl
  rw [_get_column_type, hdata, ht, hd, hemp, if_neg (by simp),
    parenCase_paren m.data hm1 hm2]
  show (⟨base.data ++ []⟩ : String) = base
  rw [List.append_nil]

/-- C6: `get_columns` derives a column's abstract type by stripping the
parenthesized size suffix with `_get_column_type` and looking the remainder up
in `_TYPE_MAPPINGS` with `NULLTYPE` as default: for every alphabetic store
type name with a parenthesized suffix, the computed type is that of the bare
name; in particular `varchar(256)` maps to the string type and an unrecognized
store type maps to the null type. -/
theorem C6_strip_then_lookup (base m : String)
    (hb : base.data ≠ [] ∧ base.data.all Char.isAlpha = true)
    (hm : m.data ≠ [] ∧ m.data.all (fun c => c != '\n') = true) :
    columnType (base ++ "(" ++ m ++ ")") = lookupType base ∧
    columnType "varchar(256)" = .STRINGTYPE ∧
    columnType "mystery" = .NULLTYPE := by
  refine ⟨?_, by decide, by decide⟩
  rw [columnType, getColumnType_strip base m hb.1 hb.2 hm.1 hm.2]

/-- Witness for C6 at the concrete store type `varchar(256)`. -/
theorem C6_witness :
    ("varchar".data ≠ [] ∧ "varchar".data.all Char.isAlpha = true) ∧
    ("256".data ≠ [] ∧ "256".data.all (fun c => c != '\n') = true) ∧
    (columnType ("varchar" ++ "(" ++ "256" ++ ")") = lookupType "varchar" ∧
     columnType "varchar(256)" = .STRINGTYPE ∧
     columnType "mystery" = .NULLTYPE) :=
  ⟨⟨by decide, by decide⟩, ⟨by decide, by decide⟩,
    C6_strip_then_lookup "varchar" "256" ⟨by decide, by decide⟩
      ⟨by decide, by decide⟩⟩

end Timestream
